import Mathlib

/-!
Verification development for the EduBot backend (`backend/main.py`).

The development shallowly embeds the request-shaping core of the backend:
the cheating-detection heuristic, the educational-context annotation, the
message-window truncation, the outgoing-payload formatting, and the two
POST handlers with their exception handling.  Python strings become `String`,
Python lists become `List`, machine integers become `Int`/`Nat`, floats that
are only ever stored and compared with `0` become `Rat`, and Python
exceptions become an `Except` monad over an explicit exception type.

Crucially, the embedding keeps the distinction the running program keeps:
a pydantic `Message` object (which has attributes `role`/`content`) is a
different runtime value from a plain `dict` with keys `"role"`/`"content"`
(which has no attributes).  Attribute access is the fallible operation it
is in Python, so the development can observe the `AttributeError` raised
by `format_messages_for_huggingface` when line 165 of `main.py` has placed
a `dict` into a list of `Message` objects.
-/

/-- `listContains pat l` is the translation of the Python expression
`pat in l` on sequences of characters: it decides whether `pat` occurs as a
contiguous substring of `l`. -/
def listContains (pat : List Char) : List Char → Bool
  | [] => pat.isEmpty
  | c :: cs => pat.isPrefixOf (c :: cs) || listContains pat cs

/-- `pyIn pat s` is the translation of the Python expression `pat in s`
for strings: substring containment. -/
def pyIn (pat s : String) : Bool :=
  listContains pat.data s.data

/-- `pyLower s` is the translation of the Python expression `s.lower()`:
every basic-latin upper-case character is mapped to lower case.  (For the
ASCII texts the program manipulates this agrees with CPython.) -/
def pyLower (s : String) : String :=
  ⟨s.data.map Char.toLower⟩

/-- The keyword list of `detect_cheating_attempt` (`main.py` line 120). -/
def keywords : List String :=
  ["solve this", "answer this", "do my homework", "just tell me", "what\x27s the answer"]

/-- Translation of `detect_cheating_attempt` (`main.py` lines 118-121):
`return any(k in user_message.lower() for k in keywords)`. -/
def detect_cheating_attempt (user_message : String) : Bool :=
  keywords.any (fun k => pyIn k (pyLower user_message))

/-- Translation of `add_educational_context` (`main.py` lines 123-127). -/
def add_educational_context (user_message : String) : String :=
  if detect_cheating_attempt user_message then
    "[GUIDE LEARNING] Student asking for direct answer: " ++ user_message
  else
    user_message

/-- The constant `SYSTEM_PROMPT` (`main.py` lines 39-48). -/
def SYSTEM_PROMPT : String :=
  "You are an educational tutor. NEVER give direct answers to homework/tests. Instead:\n\n1. Use analogies and real-world examples\n2. Ask guiding questions\n3. Give hints without conclusions\n4. Encourage discovery\n\nIf asked for direct answers, say: \"I can\x27t give you the answer, but let me help you understand...\"\n\nBe concise, encouraging, and focus on learning concepts."

/-- Sampling default `MAX_TOKENS` (`main.py` line 30), at the documented
default configuration (no environment override). -/
def MAX_TOKENS : Int := 512

/-- Sampling default `TEMPERATURE` (`main.py` line 31), at the documented
default configuration. -/
def TEMPERATURE : Rat := 1/2

/-- Sampling default `TOP_P` (`main.py` line 32), at the documented
default configuration. -/
def TOP_P : Rat := 8/10

/-- Sampling default `TOP_K` (`main.py` line 33), at the documented
default configuration. -/
def TOP_K : Int := 30

/-- A pydantic `Message` (`main.py` lines 91-93): FastAPI parses every
element of the request body's `messages` array into one of these, so a
`ChatRequest` holds `Message` objects only. -/
structure Message where
  role : String
  content : String
deriving DecidableEq, Repr

/-- A runtime value that can sit in the message lists the `chat` handler
manipulates: either a pydantic `Message` object (attribute access works)
or a plain Python `dict` with keys `"role"` and `"content"` (attribute
access raises `AttributeError`).  Line 165 of `main.py` puts a `dict`
into a list that otherwise holds `Message` objects, so both shapes occur. -/
inductive PyMsg where
  | obj (role content : String)
  | dict (role content : String)
deriving DecidableEq, Repr

/-- The Python exceptions the embedded code can raise:
`fastapi.HTTPException(status_code, detail)` and
`AttributeError` (carrying the type name and the missing attribute). -/
inductive PyExc where
  | httpException (status_code : Nat) (detail : String)
  | attributeError (typeName attrName : String)
deriving DecidableEq, Repr

/-- `str(e)` for the embedded exceptions: starlette's
`HTTPException.__str__` produces `"{status_code}: {detail}"`, and CPython's
`AttributeError` message is `"\x27T\x27 object has no attribute \x27a\x27"`. -/
def pyStrExc : PyExc → String
  | .httpException s d => Nat.repr s ++ ": " ++ d
  | .attributeError t a =>
      "\x27" ++ t ++ "\x27 object has no attribute \x27" ++ a ++ "\x27"

/-- Python attribute access `m.role` / `m.content` on a message-list
element: it succeeds on a `Message` object and raises `AttributeError`
on a plain `dict`. -/
def PyMsg.getattr : PyMsg → String → Except PyExc String
  | .obj r _, "role" => .ok r
  | .obj _ c, "content" => .ok c
  | .obj _ _, a => .error (.attributeError "Message" a)
  | .dict _ _, a => .error (.attributeError "dict" a)

/-- The loop body of `format_messages_for_huggingface` (`main.py` lines
114-115): `for msg in messages: formatted.append(dict of msg.role, msg.content)`,
threading the accumulator `formatted`. -/
def formatLoop (acc : List PyMsg) : List PyMsg → Except PyExc (List PyMsg)
  | [] => .ok acc
  | msg :: rest =>
      match msg.getattr "role" with
      | .error e => .error e
      | .ok r =>
          match msg.getattr "content" with
          | .error e => .error e
          | .ok c => formatLoop (acc ++ [PyMsg.dict r c]) rest

/-- Translation of `format_messages_for_huggingface` (`main.py` lines
109-116): start from the singleton list holding the system entry, then
append a fresh dict for every message, reading `msg.role` and
`msg.content` by attribute access. -/
def format_messages_for_huggingface (messages : List PyMsg) : Except PyExc (List PyMsg) :=
  formatLoop [PyMsg.dict "system" SYSTEM_PROMPT] messages

/-- Translation of the request model `ChatRequest` (`main.py` lines 95-98).
`temperature` and `max_tokens` are `Optional` with non-`None` defaults, so
an absent field arrives as `some TEMPERATURE` / `some MAX_TOKENS`, while an
explicit JSON `null` arrives as `none`. -/
structure ChatRequest where
  messages : List Message
  temperature : Option Rat := some TEMPERATURE
  max_tokens : Option Int := some MAX_TOKENS
deriving DecidableEq, Repr

/-- The payload of the `client.chat_completion(...)` call (`main.py` lines
170-176): what would be handed to the inference collaborator. -/
structure InferenceRequest where
  messages : List PyMsg
  max_tokens : Int
  temperature : Rat
  top_p : Rat
  top_k : Int
deriving DecidableEq, Repr

/-- Python truthiness fallback `x or d` for an optional integer
(`main.py` line 172, `request.max_tokens or MAX_TOKENS`): `None` and `0`
are falsy, every other integer is truthy. -/
def pyOrInt (x : Option Int) (d : Int) : Int :=
  match x with
  | none => d
  | some v => if v = 0 then d else v

/-- Python truthiness fallback `x or d` for an optional float
(`main.py` line 173, `request.temperature or TEMPERATURE`): `None` and
`0.0` are falsy, every other value is truthy. -/
def pyOrRat (x : Option Rat) (d : Rat) : Rat :=
  match x with
  | none => d
  | some v => if v = 0 then d else v

/-- `request.messages[-1]` (`main.py` line 153): Python negative indexing
takes the last element and raises `IndexError` on an empty list; the
handler only evaluates it after the emptiness check, so the error branch
is unreachable there and the embedding records it as a (never-raised)
`AttributeError`-free generic 500 path via `Option`. -/
def pyLast (l : List Message) : Option Message :=
  l.getLast?

/-- The trailing window of `main.py` line 161:
`request.messages[-3:] if len(request.messages) > 3 else request.messages`.
`pySliceLast n l` is Python `l[-n:]`, i.e. the final `min n (length l)`
elements. -/
def pySliceLast (n : Nat) (l : List α) : List α :=
  l.drop (l.length - n)

/-- `recent_messages` (`main.py` line 161). -/
def recent_messages (msgs : List Message) : List Message :=
  if msgs.length > 3 then pySliceLast 3 msgs else msgs

/-- `modified_messages` (`main.py` lines 164-165): copy the window
(`recent_messages.copy()`, so the window's `Message` objects are shared
but the list is fresh) and overwrite the final slot with the plain dict
`\x7b"role": "user", "content": enhanced_message\x7d`. -/
def modified_messages (msgs : List Message) (enhanced_message : String) : List PyMsg :=
  let copy := (recent_messages msgs).map (fun m => PyMsg.obj m.role m.content)
  copy.set (copy.length - 1) (PyMsg.dict "user" enhanced_message)

/-- The `try`-block of the `chat` handler (`main.py` lines 148-187), up to
and including the construction of the `client.chat_completion` argument
list; the collaborator call itself is external, so a successful run
returns the `InferenceRequest` that is sent.  Python evaluates the
`messages=` argument (the `format_messages_for_huggingface` call) before
the sampling-parameter arguments, and the embedding keeps that order. -/
def chatBody (request : ChatRequest) : Except PyExc InferenceRequest :=
  if request.messages.isEmpty then
    .error (PyExc.httpException 400 "No messages provided")
  else
    match pyLast request.messages with
    | none => .error (PyExc.httpException 500 "list index out of range")
    | some last_message =>
        if last_message.role ≠ "user" then
          .error (PyExc.httpException 400 "Last message must be from user")
        else
          let enhanced_message := add_educational_context last_message.content
          match format_messages_for_huggingface
              (modified_messages request.messages enhanced_message) with
          | .error e => .error e
          | .ok formatted =>
              .ok { messages := formatted
                    max_tokens := pyOrInt request.max_tokens MAX_TOKENS
                    temperature := pyOrRat request.temperature TEMPERATURE
                    top_p := TOP_P
                    top_k := TOP_K }

/-- The `chat` handler (`main.py` lines 142-193) with its exception
handling: `except HTTPException: raise` re-raises HTTP errors unchanged,
and `except Exception as e` converts every other exception into
`HTTPException(500, "Internal server error: " + str(e))`. -/
def chat (request : ChatRequest) : Except PyExc InferenceRequest :=
  match chatBody request with
  | .ok v => .ok v
  | .error (.httpException s d) => .error (.httpException s d)
  | .error e => .error (.httpException 500 ("Internal server error: " ++ pyStrExc e))

/-- The response body of `analyze_question` (`main.py` lines 208-211). -/
structure AnalyzeResponse where
  is_direct_answer_request : Bool
  recommendation : String
deriving DecidableEq, Repr

/-- The `try`-block of `analyze_question` (`main.py` lines 201-211). -/
def analyzeBody (request : ChatRequest) : Except PyExc AnalyzeResponse :=
  if request.messages.isEmpty then
    .error (PyExc.httpException 400 "No messages provided")
  else
    match pyLast request.messages with
    | none => .error (PyExc.httpException 500 "list index out of range")
    | some last_message =>
        let is_cheating := detect_cheating_attempt last_message.content
        .ok { is_direct_answer_request := is_cheating
              recommendation :=
                if is_cheating then "Reframe as learning opportunity"
                else "Safe to answer educationally" }

/-- The `analyze_question` handler (`main.py` lines 195-214).  Unlike
`chat`, its `try` has no `except HTTPException: raise` clause, so the
blanket `except Exception as e` also catches the `HTTPException(400)`
raised for an empty message list and re-raises it as
`HTTPException(500, str(e))`. -/
def analyze_question (request : ChatRequest) : Except PyExc AnalyzeResponse :=
  match analyzeBody request with
  | .ok v => .ok v
  | .error e => .error (.httpException 500 (pyStrExc e))

/-- A heap of Python list objects holding message values; a reference is
an index into the store.  This refines the list manipulation of `main.py`
lines 160-165 with explicit object identity, so that aliasing
(`recent_messages` can be the *same* object as `request.messages` when the
conversation is short) and in-place update (`modified_messages[-1] = ...`)
are observable. -/
structure PyHeap where
  lists : List (List PyMsg)
deriving DecidableEq, Repr

/-- Read the list object a reference points to. -/
def PyHeap.read (h : PyHeap) (r : Nat) : List PyMsg :=
  h.lists.getD r []

/-- Allocate a fresh list object, returning the new heap and its reference. -/
def PyHeap.alloc (h : PyHeap) (v : List PyMsg) : PyHeap × Nat :=
  (⟨h.lists ++ [v]⟩, h.lists.length)

/-- In-place element assignment `obj[i] = v` on the list object `r`. -/
def PyHeap.writeAt (h : PyHeap) (r i : Nat) (v : PyMsg) : PyHeap :=
  ⟨h.lists.set r ((h.lists.getD r []).set i v)⟩

/-- Heap-level translation of `main.py` line 161: the slice
`request.messages[-3:]` allocates a fresh list object when the
conversation is long, while the `else` branch *aliases*
`request.messages` itself. -/
def chatStep1 (h : PyHeap) (msgsRef : Nat) : PyHeap × Nat :=
  if (h.read msgsRef).length > 3 then PyHeap.alloc h (pySliceLast 3 (h.read msgsRef))
  else (h, msgsRef)

/-- Heap-level translation of `main.py` lines 164-165:
`recent_messages.copy()` always allocates a fresh list object, and
`modified_messages[-1] = dict` assigns into the final slot of that copy
in place. -/
def chatStep2 (s : PyHeap × Nat) (enhanced_message : String) : PyHeap × Nat :=
  let p := PyHeap.alloc s.1 (PyHeap.read s.1 s.2)
  (PyHeap.writeAt p.1 p.2 ((PyHeap.read p.1 p.2).length - 1)
      (PyMsg.dict "user" enhanced_message),
    p.2)

/-- Heap-level translation of `main.py` lines 160-165, run on the list
object `msgsRef` holding `request.messages`.  Returns the final heap and
the reference to `modified_messages`. -/
def chatWindowHeap (h : PyHeap) (msgsRef : Nat) (enhanced_message : String) : PyHeap × Nat :=
  chatStep2 (chatStep1 h msgsRef) enhanced_message

instance {ε α : Type} [DecidableEq ε] [DecidableEq α] : DecidableEq (Except ε α) :=
  fun a b =>
    match a, b with
    | .ok x, .ok y =>
        if h : x = y then .isTrue (by rw [h]) else .isFalse (by simp [h])
    | .error x, .error y =>
        if h : x = y then .isTrue (by rw [h]) else .isFalse (by simp [h])
    | .ok _, .error _ => .isFalse (by simp)
    | .error _, .ok _ => .isFalse (by simp)

/-! ## Bridge lemmas -/

lemma isPrefixOf_eq_true {l₁ l₂ : List Char} : l₁.isPrefixOf l₂ = true ↔ l₁ <+: l₂ :=
  List.isPrefixOf_iff_prefix

lemma listContains_iff (pat : List Char) : ∀ l : List Char, listContains pat l = true ↔ pat <:+: l := by
  intro l
  induction l with
  | nil => simp [listContains]
  | cons c cs ih =>
      simp [listContains, isPrefixOf_eq_true, ih, List.infix_cons_iff]

lemma pyIn_iff (pat s : String) : pyIn pat s = true ↔ pat.data <:+: s.data :=
  listContains_iff pat.data s.data

lemma detect_iff (t : String) :
    detect_cheating_attempt t = true ↔
      ∃ k ∈ keywords, k.data <:+: (pyLower t).data := by
  simp [detect_cheating_attempt, List.any_eq_true, pyIn_iff]

lemma pyLower_data (s : String) : (pyLower s).data = s.data.map Char.toLower := rfl

lemma pyLower_append (a b : String) :
    (pyLower (a ++ b)).data = (pyLower a).data ++ (pyLower b).data := by
  simp [pyLower_data]

lemma formatLoop_map_obj_dict (ms : List Message) :
    ∀ (acc : List PyMsg) (r c : String) (rest : List PyMsg),
      formatLoop acc
          ((ms.map (fun m => PyMsg.obj m.role m.content)) ++ PyMsg.dict r c :: rest) =
        .error (.attributeError "dict" "role") := by
  induction ms with
  | nil => intro acc r c rest; simp [formatLoop, PyMsg.getattr]
  | cons m ms ih =>
      intro acc r c rest
      simpa [formatLoop, PyMsg.getattr] using ih _ _ _ _

lemma recent_messages_ne_nil {msgs : List Message} (h : msgs ≠ []) :
    recent_messages msgs ≠ [] := by
  unfold recent_messages pySliceLast
  split
  · intro hnil
    have := congrArg List.length hnil
    simp [List.length_drop] at this
    omega
  · exact h

lemma format_modified_err (msgs : List Message) (e : String) (h : msgs ≠ []) :
    format_messages_for_huggingface (modified_messages msgs e) =
      .error (.attributeError "dict" "role") := by
  obtain ⟨L, b, hLb⟩ :=
    (List.eq_nil_or_concat (recent_messages msgs)).resolve_left (recent_messages_ne_nil h)
  rw [List.concat_eq_append] at hLb
  unfold modified_messages format_messages_for_huggingface
  rw [hLb]
  rw [List.map_append]
  have hset :
      ((L.map fun m => PyMsg.obj m.role m.content) ++ [b].map fun m => PyMsg.obj m.role m.content).set
          (((L.map fun m => PyMsg.obj m.role m.content) ++ [b].map fun m => PyMsg.obj m.role m.content).length - 1)
          (PyMsg.dict "user" e) =
        (L.map fun m => PyMsg.obj m.role m.content) ++ PyMsg.dict "user" e :: [] := by
    rw [List.set_append_right _ _ (by simp)]
    simp
  rw [hset]
  exact formatLoop_map_obj_dict L _ "user" e []

lemma read_alloc_old (h : PyHeap) (v : List PyMsg) (r : Nat) (hr : r < h.lists.length) :
    (PyHeap.alloc h v).1.read r = h.read r := by
  simp [PyHeap.alloc, PyHeap.read, List.getD_eq_getElem?_getD, List.getElem?_append_left hr]

lemma read_write_ne (h : PyHeap) (r i : Nat) (v : PyMsg) (j : Nat) (hj : j ≠ r) :
    (h.writeAt r i v).read j = h.read j := by
  simp [PyHeap.writeAt, PyHeap.read, List.getD_eq_getElem?_getD,
    List.getElem?_set_ne (fun hrj => hj hrj.symm)]

lemma chatStep2_read (s : PyHeap × Nat) (e : String) (j : Nat) (hj : j < s.1.lists.length) :
    (chatStep2 s e).1.read j = s.1.read j := by
  show (PyHeap.writeAt (PyHeap.alloc s.1 (PyHeap.read s.1 s.2)).1
          (PyHeap.alloc s.1 (PyHeap.read s.1 s.2)).2
          ((PyHeap.read (PyHeap.alloc s.1 (PyHeap.read s.1 s.2)).1
              (PyHeap.alloc s.1 (PyHeap.read s.1 s.2)).2).length - 1)
          (PyMsg.dict "user" e)).read j
        = PyHeap.read s.1 j
  rw [read_write_ne _ _ _ _ _ (by simp only [PyHeap.alloc]; omega)]
  exact read_alloc_old _ _ _ hj

lemma chatStep2_ref (s : PyHeap × Nat) (e : String) :
    (chatStep2 s e).2 = s.1.lists.length := rfl

/-- A concrete four-message conversation used by witnesses. -/
def sampleConv4 : List Message :=
  [⟨"user", "m1"⟩, ⟨"assistant", "m2"⟩, ⟨"user", "m3"⟩, ⟨"user", "m4"⟩]

/-! ## Claim theorems -/

/-- Claim C1: for every conversation with at most 3 messages the shaped
window (`recent_messages`, `main.py` line 161) equals the whole
conversation; for every conversation with more than 3 messages the shaped
window has length 3 and is exactly the trailing segment of the original
conversation, in original order. -/
theorem chat_recent_window_spec (msgs : List Message) :
    (msgs.length ≤ 3 → recent_messages msgs = msgs) ∧
    (3 < msgs.length →
      (recent_messages msgs).length = 3 ∧
      msgs.take (msgs.length - 3) ++ recent_messages msgs = msgs) := by
  constructor
  · intro hle
    unfold recent_messages
    rw [if_neg (by omega)]
  · intro hgt
    unfold recent_messages pySliceLast
    rw [if_pos (by omega)]
    constructor
    · simp only [List.length_drop]
      omega
    · exact List.take_append_drop _ _

/-- Witness for C1: the four-message conversation keeps exactly its last
three messages. -/
theorem chat_recent_window_spec_witness :
    (recent_messages sampleConv4).length = 3 ∧
    sampleConv4.take (sampleConv4.length - 3) ++ recent_messages sampleConv4 = sampleConv4 :=
  (chat_recent_window_spec sampleConv4).2 (by decide)

/-- Claim C2: `detect_cheating_attempt` returns `true` exactly when the
lowercased text contains one of the five fixed substrings, and in
particular is `true` on `"Just Tell Me the answer"` and `false` on
`"How does photosynthesis work?"`. -/
theorem detect_cheating_attempt_spec :
    (∀ text : String,
        detect_cheating_attempt text = true ↔
          ∃ k ∈ (["solve this", "answer this", "do my homework", "just tell me",
                   "what\x27s the answer"] : List String),
            k.data <:+: (pyLower text).data) ∧
    detect_cheating_attempt "Just Tell Me the answer" = true ∧
    detect_cheating_attempt "How does photosynthesis work?" = false := by
  refine ⟨fun text => ?_, by decide, by decide⟩
  exact detect_iff text

/-- Witness for C2: a concrete trigger phrase, classified through the
equivalence. -/
theorem detect_cheating_attempt_spec_witness :
    ∃ k ∈ (["solve this", "answer this", "do my homework", "just tell me",
             "what\x27s the answer"] : List String),
      k.data <:+: (pyLower "Can you solve this equation?").data :=
  (detect_cheating_attempt_spec.1 "Can you solve this equation?").mp (by decide)

/-- Claim C6: `add_educational_context` prefixes the fixed marker and
restates the original text when the classifier fires, and returns the
text unchanged otherwise; for the single-message conversation asking
`"What\x27s the answer to this homework question?"` the shaped window's
last entry carries both the guidance marker and the original text. -/
theorem add_educational_context_spec :
    (∀ t : String,
        (detect_cheating_attempt t = true →
          add_educational_context t =
            "[GUIDE LEARNING] Student asking for direct answer: " ++ t) ∧
        (detect_cheating_attempt t = false → add_educational_context t = t)) ∧
    (∃ c, (modified_messages [⟨"user", "What\x27s the answer to this homework question?"⟩]
            (add_educational_context "What\x27s the answer to this homework question?")).getLast?
          = some (PyMsg.dict "user" c) ∧
          pyIn "[GUIDE LEARNING]" c = true ∧
          pyIn "What\x27s the answer to this homework question?" c = true ∧
          detect_cheating_attempt "What\x27s the answer to this homework question?" = true) := by
  constructor
  · intro t
    constructor
    · intro hd; simp [add_educational_context, hd]
    · intro hd; simp [add_educational_context, hd]
  · exact ⟨"[GUIDE LEARNING] Student asking for direct answer: What\x27s the answer to this homework question?",
      by decide⟩

/-- Witness for C6: the annotation at a concrete trigger phrase. -/
theorem add_educational_context_spec_witness :
    add_educational_context "do my homework please" =
      "[GUIDE LEARNING] Student asking for direct answer: " ++ "do my homework please" :=
  (add_educational_context_spec.1 "do my homework please").1 (by decide)

/-- Claim C9: annotating never changes the classification:
`detect_cheating_attempt (add_educational_context t) = detect_cheating_attempt t`
for every text `t`, because the annotated string still contains `t` as a
substring and an unannotated text is returned unchanged. -/
theorem classify_annotate_invariant (t : String) :
    detect_cheating_attempt (add_educational_context t) = detect_cheating_attempt t := by
  by_cases hd : detect_cheating_attempt t = true
  · rw [hd]
    have hann : add_educational_context t =
        "[GUIDE LEARNING] Student asking for direct answer: " ++ t := by
      simp [add_educational_context, hd]
    rw [hann, detect_iff]
    rw [detect_iff] at hd
    obtain ⟨k, hk, hin⟩ := hd
    refine ⟨k, hk, ?_⟩
    rw [pyLower_append]
    obtain ⟨s, u, hsu⟩ := hin
    exact ⟨(pyLower "[GUIDE LEARNING] Student asking for direct answer: ").data ++ s, u, by
      rw [← hsu]; simp [List.append_assoc]⟩
  · have hd' : detect_cheating_attempt t = false := by simpa using hd
    rw [hd']
    simp [add_educational_context, hd']

/-- Helper: on every structurally valid request (non-empty messages whose
last element has role `"user"`), the `chat` handler's body stops with the
`AttributeError` raised inside `format_messages_for_huggingface` when it
reaches the plain dict that line 165 put into the window. -/
lemma chatBody_valid_attr (req : ChatRequest) (m : Message)
    (hm : req.messages.getLast? = some m) (hrole : m.role = "user") :
    chatBody req = .error (.attributeError "dict" "role") := by
  have hne : req.messages ≠ [] := by
    intro hE
    rw [hE] at hm
    simp at hm
  have hfmt := format_modified_err req.messages (add_educational_context m.content) hne
  simp only [chatBody, pyLast, hm, hfmt, List.isEmpty_eq_true]
  rw [if_neg hne, if_neg (by simp [hrole])]

/-- Helper: on every structurally valid request the `chat` handler
answers HTTP 500 with the `AttributeError` text, by the blanket
`except Exception` clause. -/
lemma chat_valid_500 (req : ChatRequest) (m : Message)
    (hm : req.messages.getLast? = some m) (hrole : m.role = "user") :
    chat req = .error (.httpException 500
      "Internal server error: \x27dict\x27 object has no attribute \x27role\x27") := by
  rw [chat, chatBody_valid_attr req m hm hrole]
  rfl

/-- Claim C3: the claim states that for every valid input the outgoing
payload starts with the system instruction and carries at most 3
conversation messages.  In fact no outgoing payload is ever produced: on
every structurally valid request the `chat` handler raises
`AttributeError` inside `format_messages_for_huggingface` (the window's
last entry is the plain dict of line 165, which has no `role` attribute)
and answers HTTP 500, so the system-instruction payload is never sent. -/
theorem chat_payload_never_sent (req : ChatRequest) (m : Message)
    (hm : req.messages.getLast? = some m) (hrole : m.role = "user") :
    chat req = .error (.httpException 500
      "Internal server error: \x27dict\x27 object has no attribute \x27role\x27") :=
  chat_valid_500 req m hm hrole

/-- Witness for C3: the single-message conversation `[user "hi"]` ends in
the 500 error instead of producing a payload. -/
theorem chat_payload_never_sent_witness :
    chat { messages := [⟨"user", "hi"⟩] } =
      .error (.httpException 500
        "Internal server error: \x27dict\x27 object has no attribute \x27role\x27") :=
  chat_payload_never_sent { messages := [⟨"user", "hi"⟩] } ⟨"user", "hi"⟩ (by decide) (by decide)

/-- Claim C4: the `chat` handler fails with a 400 validation error exactly
when the conversation is empty or its last message's role is not
`"user"`; every non-empty conversation ending in a user message passes
validation (it then fails with a 500, not a validation error). -/
theorem chat_validation_iff (req : ChatRequest) :
    (∃ d, chat req = .error (.httpException 400 d)) ↔
      (req.messages = [] ∨ ∃ m ms, req.messages = ms ++ [m] ∧ m.role ≠ "user") := by
  by_cases hE : req.messages = []
  · constructor
    · intro _
      exact Or.inl hE
    · intro _
      refine ⟨"No messages provided", ?_⟩
      simp [chat, chatBody, hE]
  · obtain ⟨L, b, hLb⟩ := (List.eq_nil_or_concat req.messages).resolve_left hE
    rw [List.concat_eq_append] at hLb
    have hm : req.messages.getLast? = some b := by
      rw [hLb]; exact List.getLast?_concat _
    by_cases hrole : b.role = "user"
    · have h500 := chat_valid_500 req b hm hrole
      constructor
      · rintro ⟨d, hd⟩
        rw [h500] at hd
        simp at hd
      · rintro (h | ⟨m', ms', hms', hrole'⟩)
        · exact absurd h hE
        · exfalso
          have hm' : req.messages.getLast? = some m' := by
            rw [hms']; exact List.getLast?_concat _
          rw [hm] at hm'
          exact hrole' ((Option.some.inj hm').symm ▸ hrole)
    · have hbody : chatBody req =
          .error (.httpException 400 "Last message must be from user") := by
        simp only [chatBody, pyLast, hm, List.isEmpty_eq_true]
        rw [if_neg hE, if_pos hrole]
      constructor
      · intro _
        exact Or.inr ⟨b, L, hLb, hrole⟩
      · intro _
        exact ⟨"Last message must be from user", by simp [chat, hbody]⟩

/-- Witness for C4: a conversation ending in an assistant message is
rejected with a 400 error. -/
theorem chat_validation_iff_witness :
    ∃ d, chat { messages := [⟨"assistant", "Hello!"⟩] } =
      .error (.httpException 400 d) :=
  (chat_validation_iff { messages := [⟨"assistant", "Hello!"⟩] }).mpr
    (Or.inr ⟨⟨"assistant", "Hello!"⟩, [], rfl, by decide⟩)

/-- Claim C5: the claim states `/analyze-question` answers 400 on an
empty message list.  In fact it answers 500: the `HTTPException(400)`
raised inside the `try` is caught by the blanket `except Exception`
clause (there is no `except HTTPException: raise` in this handler) and
re-raised as `HTTPException(500, str(e))`.  On non-empty input the
handler does return `is_direct_answer_request` equal to the classifier
applied to the last message's content, with the matching
recommendation. -/
theorem analyze_question_behavior :
    analyze_question { messages := [] } =
      .error (.httpException 500 "400: No messages provided") ∧
    ∀ (req : ChatRequest) (m : Message), req.messages.getLast? = some m →
      analyze_question req =
        .ok { is_direct_answer_request := detect_cheating_attempt m.content
              recommendation :=
                if detect_cheating_attempt m.content then "Reframe as learning opportunity"
                else "Safe to answer educationally" } := by
  constructor
  · decide
  · intro req m hm
    have hne : req.messages ≠ [] := by
      intro hE
      rw [hE] at hm
      simp at hm
    have hbody : analyzeBody req =
        .ok { is_direct_answer_request := detect_cheating_attempt m.content
              recommendation :=
                if detect_cheating_attempt m.content then "Reframe as learning opportunity"
                else "Safe to answer educationally" } := by
      simp only [analyzeBody, pyLast, hm, List.isEmpty_eq_true]
      rw [if_neg hne]
    simp [analyze_question, hbody]

/-- Witness for C5: a concrete non-empty request, classified through the
theorem. -/
theorem analyze_question_behavior_witness :
    analyze_question { messages := [⟨"user", "answer this question"⟩] } =
      .ok { is_direct_answer_request := detect_cheating_attempt "answer this question"
            recommendation :=
              if detect_cheating_attempt "answer this question" then "Reframe as learning opportunity"
              else "Safe to answer educationally" } :=
  analyze_question_behavior.2 { messages := [⟨"user", "answer this question"⟩] }
    ⟨"user", "answer this question"⟩ (by decide)

/-- Claim C7: the claim states that the shaped window's last entry gets
the annotated content with its role preserved and that the instruction is
then prepended at position 0.  The first half holds of the window value,
but the prepend never completes: `format_messages_for_huggingface` raises
`AttributeError` on the window's dict entry before returning any payload,
as this evaluation at a concrete valid two-message conversation shows. -/
theorem format_window_attribute_error :
    format_messages_for_huggingface
        (modified_messages
          [⟨"assistant", "Light powers photosynthesis."⟩, ⟨"user", "thanks, solve this"⟩]
          (add_educational_context "thanks, solve this")) =
      .error (.attributeError "dict" "role") := by
  decide

/-- Claim C8: shaping does not mutate the caller's conversation: in the
heap model of `main.py` lines 160-165, the list object holding
`request.messages` is unchanged after the window is built, and the
returned `modified_messages` reference is a freshly allocated object
(the `.copy()` on line 164 is what protects the short-conversation case,
where `recent_messages` aliases `request.messages`). -/
theorem chat_no_mutation (h : PyHeap) (msgsRef : Nat) (e : String)
    (hr : msgsRef < h.lists.length) :
    (chatWindowHeap h msgsRef e).1.read msgsRef = h.read msgsRef ∧
    (chatWindowHeap h msgsRef e).2 ≠ msgsRef := by
  have hgrow : h.lists.length ≤ (chatStep1 h msgsRef).1.lists.length := by
    unfold chatStep1
    split
    · simp [PyHeap.alloc]
    · exact Nat.le_refl _
  constructor
  · have hs2 := chatStep2_read (chatStep1 h msgsRef) e msgsRef (Nat.lt_of_lt_of_le hr hgrow)
    unfold chatWindowHeap
    rw [hs2]
    unfold chatStep1
    split
    · exact read_alloc_old _ _ _ hr
    · rfl
  · unfold chatWindowHeap
    rw [chatStep2_ref]
    omega

/-- Witness for C8: a one-object heap holding a single-message
conversation is unchanged at its original reference. -/
theorem chat_no_mutation_witness :
    (chatWindowHeap ⟨[[PyMsg.obj "user" "hi"]]⟩ 0 "hi").1.read 0 =
      PyHeap.read ⟨[[PyMsg.obj "user" "hi"]]⟩ 0 ∧
    (chatWindowHeap ⟨[[PyMsg.obj "user" "hi"]]⟩ 0 "hi").2 ≠ 0 :=
  chat_no_mutation ⟨[[PyMsg.obj "user" "hi"]]⟩ 0 "hi" (by decide)

/-- Claim C10: the claim states that a supplied `temperature = 0.0` or
`max_tokens = 0` falls back to the process-wide default on the call to
the inference collaborator, and a non-zero supplied value is passed
through.  In fact the collaborator call is never reached: Python
evaluates the `messages=` argument first, which raises `AttributeError`,
so neither the supplied nor the default sampling values are ever passed,
as this evaluation at a request supplying both zeros shows. -/
theorem chat_sampling_never_passed :
    chat { messages := [⟨"user", "What is 2 + 2?"⟩],
           temperature := some 0, max_tokens := some 0 } =
      .error (.httpException 500
        "Internal server error: \x27dict\x27 object has no attribute \x27role\x27") := by
  decide
